import Mathlib

/-!
Verification of the type-modeling repository: a nominal subtype relation
over a type graph with multiple supertypes, and an expression type-checking
engine for a small subset of Java.

Python objects compare with `==` by identity here (no `__eq__` overrides),
so a type graph is modelled as a map from object identities (natural-number
addresses) to the object's fields.  The recursive traversals of the source
(`is_subtype_of`, `method_named`) need not terminate on cyclic graphs, so
they are embedded with an explicit fuel parameter: `none` models a call
that has not returned within the given recursion budget (nontermination),
`some r` models a call that returned `r`.
-/

/-- Embedding of Python's `any(...)` over a generator of recursive calls:
`none` (a diverging call) aborts the whole computation, `some true` short
circuits, `some false` moves to the next element. -/
def anyOpt (f : Nat → Option Bool) : List Nat → Option Bool
  | [] => some false
  | t :: ts =>
    match f t with
    | none => none
    | some true => some true
    | some false => anyOpt f ts

/-- Embedding of the `for type in ... try ... except NoSuchMethod: pass`
loop of `method_named`: try each element in order; a diverging call aborts;
a successful call returns immediately; a failing call moves on; when the
list is exhausted the given failure message is raised. -/
def searchList {α : Type} (f : Nat → Option (Except String α)) (failMsg : String) :
    List Nat → Option (Except String α)
  | [] => some (Except.error failMsg)
  | t :: ts =>
    match f t with
    | none => none
    | some (Except.ok m) => some (Except.ok m)
    | some (Except.error _) => searchList f failMsg ts

namespace TypeChecker

/-- Field layout of `JavaMethod` in type_checker/types.py: a name, an
ordered list of argument types (type addresses) and an optional return
type (`return_type=None` by default). -/
structure JavaMethod where
  name : String
  argument_types : List Nat
  return_type : Option Nat
deriving DecidableEq

/-- Field layout of `JavaConstructor` in type_checker/types.py: only an
ordered list of argument types. -/
structure JavaConstructor where
  argument_types : List Nat
deriving DecidableEq

/-- Field layout of `JavaClassOrInterface` (which extends `JavaType`) in
type_checker/types.py: a name, the ordered direct supertypes (addresses),
a constructor, and the declared methods (the list the `methods` dict is
built from). A plain `JavaType` is the special case with no methods. -/
structure JavaClassOrInterface where
  name : String
  direct_supertypes : List Nat
  constructor : JavaConstructor
  methods : List JavaMethod
deriving DecidableEq

/-- A type graph: each address (Python object identity) carries the fields
of the type object stored there. -/
structure TypeGraph where
  info : Nat → JavaClassOrInterface

/-- Embedding of the dict comprehension
`{ method.name: method for method in methods }` followed by a key lookup:
a later method with the same name overwrites an earlier one. -/
def methodsDict (ms : List JavaMethod) (name : String) : Option JavaMethod :=
  ms.foldl (fun acc m => if m.name = name then some m else acc) none

/-- Embedding of `JavaType.is_subtype_of`: true iff `other == self`
(object identity) or some direct supertype is a subtype of `other`.
The extra first argument is recursion fuel. -/
def is_subtype_of (g : TypeGraph) : Nat → Nat → Nat → Option Bool
  | 0, _, _ => none
  | fuel + 1, self, other =>
    if other = self then some true
    else anyOpt (fun t => is_subtype_of g fuel t other) (g.info self).direct_supertypes

/-- Embedding of `JavaType.is_supertype_of`: a pure convenience inverse of
`is_subtype_of`. -/
def is_supertype_of (g : TypeGraph) (fuel self other : Nat) : Option Bool :=
  is_subtype_of g fuel other self

/-- Embedding of `JavaClassOrInterface.method_named`: look in the type's
own methods dict; on a miss, try each direct supertype in declared order,
skipping those that raise `NoSuchMethod`; if none succeeds, raise
`NoSuchMethod` with a message naming the type and the method.  `Except.error`
carries the exception message; the first argument is recursion fuel. -/
def method_named (g : TypeGraph) : Nat → Nat → String → Option (Except String JavaMethod)
  | 0, _, _ => none
  | fuel + 1, self, name =>
    match methodsDict (g.info self).methods name with
    | some m => some (Except.ok m)
    | none =>
      searchList (fun t => method_named g fuel t name)
        ((g.info self).name ++ " has no method named " ++ name)
        (g.info self).direct_supertypes

/-- Reachability along direct supertype edges, including the reflexive
case: the relation `is_subtype_of` computes on an acyclic graph. -/
inductive Reach (g : TypeGraph) : Nat → Nat → Prop
  | refl (a : Nat) : Reach g a a
  | step {a b c : Nat} : b ∈ (g.info a).direct_supertypes → Reach g b c → Reach g a c

/-- Acyclicity of the supertype graph, expressed as a rank function that
strictly decreases along every direct supertype edge (the caller-supplied
precondition under which the source's recursion terminates). -/
def Ranked (g : TypeGraph) (r : Nat → Nat) : Prop :=
  ∀ t s, s ∈ (g.info t).direct_supertypes → r s < r t

/-- A three-type chain Rectangle (2) <: GraphicsObject (1) <: Object (0),
as in the repository's test fixtures. -/
def chainGraph : TypeGraph :=
  { info := fun t =>
      if t = 2 then { name := "Rectangle", direct_supertypes := [1], constructor := ⟨[]⟩, methods := [] }
      else if t = 1 then { name := "GraphicsObject", direct_supertypes := [0], constructor := ⟨[]⟩, methods := [] }
      else { name := "Object", direct_supertypes := [], constructor := ⟨[]⟩, methods := [] } }

/-- A graph in which every address holds an unrelated type named "Foo":
two distinct objects with equal names and no supertype relation. -/
def twinGraph : TypeGraph :=
  { info := fun _ => { name := "Foo", direct_supertypes := [], constructor := ⟨[]⟩, methods := [] } }

/-- A cyclic graph: type 0 lists itself as its direct supertype. -/
def loopGraph : TypeGraph :=
  { info := fun _ => { name := "Loop", direct_supertypes := [0], constructor := ⟨[]⟩, methods := [] } }

/-- The method named "draw" declared by the left branch of the diamond. -/
def leftDraw : JavaMethod := { name := "draw", argument_types := [], return_type := some 10 }

/-- The method named "draw" declared by the right branch of the diamond. -/
def rightDraw : JavaMethod := { name := "draw", argument_types := [], return_type := some 20 }

/-- A diamond: Impl (3) lists supertypes [Left (1), Right (2)], both of
which declare a method named "draw"; Impl declares no override. -/
def diamondGraph : TypeGraph :=
  { info := fun t =>
      if t = 3 then { name := "Impl", direct_supertypes := [1, 2], constructor := ⟨[]⟩, methods := [] }
      else if t = 2 then { name := "Right", direct_supertypes := [0], constructor := ⟨[]⟩, methods := [rightDraw] }
      else if t = 1 then { name := "Left", direct_supertypes := [0], constructor := ⟨[]⟩, methods := [leftDraw] }
      else { name := "Object", direct_supertypes := [], constructor := ⟨[]⟩, methods := [] } }

end TypeChecker

namespace JavaTypeChecker

/-!
Embedding of java_type_checker/expressions.py.  The companion module
java_type_checker/types.py is not under src/ (only expressions.py imports
it); the pieces it supplies — the error classes `JavaTypeError` and
`NoSuchJavaMethod`, the `is_object_type` marker, the subtype relation, the
method lookup and the null type of `JavaBuiltInTypes` — are modelled from
the spec below and marked as such.
-/

/-- Exceptions raised by the checker.  `JavaTypeMismatchError`,
`JavaArgumentCountError` and `JavaIllegalInstantiationError` are defined
in expressions.py as subclasses of `JavaTypeError`; `JavaTypeError` and
`NoSuchJavaMethod` come from the missing types module (modelled from the
spec's error taxonomy, section 7); `NotImplementedError` is Python's
builtin, raised by the `JavaExpression` base class. -/
inductive JavaError where
  | JavaTypeError (msg : String)
  | NoSuchJavaMethod (msg : String)
  | JavaTypeMismatchError (msg : String)
  | JavaArgumentCountError (msg : String)
  | JavaIllegalInstantiationError (msg : String)
  | NotImplementedError (msg : String)
deriving DecidableEq

/-- Result of running a checker operation: `none` models a call that does
not return within the recursion budget, `some (Except.error e)` a raised
exception, `some (Except.ok a)` a normal return. -/
abbrev Res (α : Type) : Type := Option (Except JavaError α)

/-- Sequencing of two operations: a diverging or raising prefix
propagates unchanged (Python exception propagation). -/
def rbind {α β : Type} : Res α → (α → Res β) → Res β
  | none, _ => none
  | some (Except.error e), _ => some (Except.error e)
  | some (Except.ok a), f => f a

/-- Modelled from the spec: the missing java_type_checker/types.py
defines a method signature with a name, an ordered sequence of parameter
types and a return type (spec section 3); expressions.py reads the fields
`parameter_types` and `return_type`. -/
structure JavaMethod where
  name : String
  parameter_types : List Nat
  return_type : Nat
deriving DecidableEq

/-- Modelled from the spec: the missing java_type_checker/types.py stores,
per type object, a unique name, the marker distinguishing object types
from primitives (spec sections 3 and 6), the ordered direct supertypes, a
name-to-method mapping (represented by the declaration list the mapping is
built from) and a constructor parameter list. -/
structure JavaTypeInfo where
  name : String
  is_object_type : Bool
  direct_supertypes : List Nat
  methods : List JavaMethod
  constructor_parameter_types : List Nat

/-- A type environment: each address (Python object identity) carries the
fields of the type object stored there, plus the address of the
distinguished null type of `JavaBuiltInTypes`. -/
structure JEnv where
  info : Nat → JavaTypeInfo
  nullId : Nat

/-- Lookup in the name-to-method mapping built from the declaration list:
a later method with the same name overwrites an earlier one. -/
def methodsDict (ms : List JavaMethod) (name : String) : Option JavaMethod :=
  ms.foldl (fun acc m => if m.name = name then some m else acc) none

/-- Modelled from the spec: the missing java_type_checker/types.py
subtype relation (spec section 4.1) — true iff the other type equals the
receiver (identity) or some direct supertype is a subtype of the other
type, with recursion fuel as first argument. -/
def is_subtype_of (env : JEnv) : Nat → Nat → Nat → Option Bool
  | 0, _, _ => none
  | fuel + 1, self, other =>
    if other = self then some true
    else anyOpt (fun t => is_subtype_of env fuel t other) (env.info self).direct_supertypes

/-- Modelled from the spec: the missing java_type_checker/types.py method
resolution (spec section 4.2) — the type's own mapping first, then each
direct supertype in declared order depth-first, and on total failure a
`NoSuchJavaMethod` whose message names the receiver type and the method.
`Except.error` carries the exception message. -/
def method_named (env : JEnv) : Nat → Nat → String → Option (Except String JavaMethod)
  | 0, _, _ => none
  | fuel + 1, self, name =>
    match methodsDict (env.info self).methods name with
    | some m => some (Except.ok m)
    | none =>
      searchList (fun t => method_named env fuel t name)
        ((env.info self).name ++ " has no method named " ++ name)
        (env.info self).direct_supertypes

/-- AST of expressions.py: one constructor per `JavaExpression` subclass,
holding the same fields (types by address). -/
inductive JavaExpr where
  | JavaVariable (name : String) (declared_type : Nat)
  | JavaLiteral (value : String) (type : Nat)
  | JavaNullLiteral
  | JavaAssignment (lhs rhs : JavaExpr)
  | JavaMethodCall (receiver : JavaExpr) (method_name : String) (args : List JavaExpr)
  | JavaConstructorCall (instantiated_type : Nat) (args : List JavaExpr)

/-- Embedding of `static_type` for every node kind of expressions.py:
variables report their declared type, literals their fixed type, the null
literal the null type, assignments their left side's static type; a method
call computes the receiver's static type, raises `JavaTypeError` when it
is not an object type, resolves the method (re-raising `NoSuchJavaMethod`
as `JavaTypeError`) and reports its return type; a constructor call does
not override the base class, whose `static_type` raises
`NotImplementedError`. -/
def static_type (env : JEnv) (fuel : Nat) : JavaExpr → Res Nat
  | .JavaVariable _ declared_type => some (Except.ok declared_type)
  | .JavaLiteral _ type => some (Except.ok type)
  | .JavaNullLiteral => some (Except.ok env.nullId)
  | .JavaAssignment lhs _ => static_type env fuel lhs
  | .JavaMethodCall receiver method_name _ =>
    rbind (static_type env fuel receiver) fun receiver_type =>
    if (env.info receiver_type).is_object_type = false then
      some (Except.error (JavaError.JavaTypeError
        ("Cannot call method " ++ method_name ++ " on primitive type "
          ++ (env.info receiver_type).name)))
    else
      match method_named env fuel receiver_type method_name with
      | none => none
      | some (Except.error msg) => some (Except.error (JavaError.JavaTypeError msg))
      | some (Except.ok m) => some (Except.ok m.return_type)
  | .JavaConstructorCall _ _ =>
    some (Except.error (JavaError.NotImplementedError
      "JavaConstructorCall must override static_type()"))

/-- Embedding of the list comprehension
`[arg.static_type().name for arg in self.args]`: the names of the static
types of the given expressions, in order, propagating the first raised
exception. -/
def static_type_names (env : JEnv) (fuel : Nat) : List JavaExpr → Res (List String)
  | [] => some (Except.ok [])
  | a :: rest =>
    rbind (static_type env fuel a) fun t =>
    rbind (static_type_names env fuel rest) fun names =>
    some (Except.ok ((env.info t).name :: names))

/-- Work items of the `check_types` recursion: either a whole expression,
or the state of the `for arg_expr, param_type in zip(...)` loop of
`JavaMethodCall.check_types` (receiver type name, method name, the full
parameter and argument lists kept for error messages, and the remaining
argument and parameter lists). -/
inductive Work where
  | expr (e : JavaExpr)
  | argsLoop (receiver_name method_name : String) (all_params : List Nat)
      (all_args : List JavaExpr) (args : List JavaExpr) (params : List Nat)

/-- Embedding of `check_types` for every node kind of expressions.py,
with recursion fuel.  Leaves succeed; an assignment checks both children,
then raises `JavaTypeMismatchError` when the right type is not a subtype
of the left type, naming the variable when the left side is a variable; a
method call checks the receiver, raises `NoSuchJavaMethod` when the
receiver's type is not an object type or the method does not resolve,
raises `JavaArgumentCountError` on an arity mismatch, then walks the
zipped argument/parameter lists, checking each argument just before its
subtype test and raising `JavaTypeMismatchError` listing the full expected
and actual type lists; a constructor call does not override the base
class, whose `check_types` raises `NotImplementedError`. -/
def checkW (env : JEnv) : Nat → Work → Res Unit
  | 0, _ => none
  | fuel + 1, Work.expr e =>
    match e with
    | .JavaVariable _ _ => some (Except.ok ())
    | .JavaLiteral _ _ => some (Except.ok ())
    | .JavaNullLiteral => some (Except.ok ())
    | .JavaAssignment lhs rhs =>
      rbind (checkW env fuel (Work.expr lhs)) fun _ =>
      rbind (checkW env fuel (Work.expr rhs)) fun _ =>
      rbind (static_type env fuel lhs) fun lhs_type =>
      rbind (static_type env fuel rhs) fun rhs_type =>
      match is_subtype_of env fuel rhs_type lhs_type with
      | none => none
      | some true => some (Except.ok ())
      | some false =>
        match lhs with
        | .JavaVariable variable_name _ =>
          some (Except.error (JavaError.JavaTypeMismatchError
            ("Cannot assign " ++ (env.info rhs_type).name ++ " to variable " ++ variable_name
              ++ " of type " ++ (env.info lhs_type).name)))
        | _ =>
          some (Except.error (JavaError.JavaTypeMismatchError
            ("Cannot assign " ++ (env.info rhs_type).name ++ " to " ++ (env.info lhs_type).name)))
    | .JavaMethodCall receiver method_name args =>
      rbind (checkW env fuel (Work.expr receiver)) fun _ =>
      rbind (static_type env fuel receiver) fun receiver_type =>
      if (env.info receiver_type).is_object_type = false then
        some (Except.error (JavaError.NoSuchJavaMethod
          ("Type " ++ (env.info receiver_type).name ++ " does not have methods")))
      else
        match method_named env fuel receiver_type method_name with
        | none => none
        | some (Except.error msg) => some (Except.error (JavaError.NoSuchJavaMethod msg))
        | some (Except.ok m) =>
          if m.parameter_types.length ≠ args.length then
            some (Except.error (JavaError.JavaArgumentCountError
              ("Wrong number of arguments for " ++ (env.info receiver_type).name ++ "."
                ++ method_name ++ "(): expected " ++ toString m.parameter_types.length
                ++ ", got " ++ toString args.length)))
          else
            checkW env fuel (Work.argsLoop (env.info receiver_type).name method_name
              m.parameter_types args args m.parameter_types)
    | .JavaConstructorCall _ _ =>
      some (Except.error (JavaError.NotImplementedError
        "JavaConstructorCall must override check_types()"))
  | fuel + 1, Work.argsLoop receiver_name method_name all_params all_args args params =>
    match args, params with
    | [], _ => some (Except.ok ())
    | _ :: _, [] => some (Except.ok ())
    | arg :: rest_args, param :: rest_params =>
      rbind (checkW env fuel (Work.expr arg)) fun _ =>
      rbind (static_type env fuel arg) fun arg_type =>
      match is_subtype_of env fuel arg_type param with
      | none => none
      | some true =>
        checkW env fuel (Work.argsLoop receiver_name method_name all_params all_args
          rest_args rest_params)
      | some false =>
        rbind (static_type_names env fuel all_args) fun actual_types =>
        some (Except.error (JavaError.JavaTypeMismatchError
          (receiver_name ++ "." ++ method_name ++ "() expects arguments of type ("
            ++ String.intercalate ", " (all_params.map (fun p => (env.info p).name))
            ++ "), but got (" ++ String.intercalate ", " actual_types ++ ")")))

/-- The `check_types` entry point on an expression node. -/
def check_types (env : JEnv) (fuel : Nat) (e : JavaExpr) : Res Unit :=
  checkW env fuel (Work.expr e)

/-- A small environment: int (0) is primitive; Foo (1) is an object type
declaring `bar(int): int`; A (2) and B (3) are unrelated object types;
every other address is an object type named Object; the null type sits at
address 4. -/
def testEnv : JEnv :=
  { info := fun t =>
      if t = 0 then
        { name := "int", is_object_type := false, direct_supertypes := [], methods := [],
          constructor_parameter_types := [] }
      else if t = 1 then
        { name := "Foo", is_object_type := true, direct_supertypes := [],
          methods := [{ name := "bar", parameter_types := [0], return_type := 0 }],
          constructor_parameter_types := [] }
      else if t = 2 then
        { name := "A", is_object_type := true, direct_supertypes := [], methods := [],
          constructor_parameter_types := [] }
      else if t = 3 then
        { name := "B", is_object_type := true, direct_supertypes := [], methods := [],
          constructor_parameter_types := [] }
      else
        { name := "Object", is_object_type := true, direct_supertypes := [], methods := [],
          constructor_parameter_types := [] },
    nullId := 4 }

/-- An ill-typed argument subtree: the assignment `a = b` where variable
`a` has type A and literal `b` has the unrelated type B. -/
def badAssign : JavaExpr :=
  JavaExpr.JavaAssignment (JavaExpr.JavaVariable "a" 2) (JavaExpr.JavaLiteral "b" 3)

end JavaTypeChecker

namespace PyDefaults

/-- A Python heap address of a list (or other mutable) object. -/
abbrev Addr : Type := Nat

/-- Allocator state: the next unused heap address. -/
structure Alloc where
  next : Addr

/-- Constructing a fresh list object at the call site. -/
def newList (s : Alloc) : Addr × Alloc := (s.next, { next := s.next + 1 })

/-- The one list object created when Python executes
`def __init__(self, argument_types=[])` in class JavaConstructor of
type_checker/types.py: a default expression is evaluated once, at function
definition time, not per call. -/
def javaConstructorDefault : Addr := 0

/-- The one list object created for the `direct_supertypes = []` default
of `JavaType.__init__` in type_checker/types.py. -/
def javaTypeDefault : Addr := 1

/-- Allocator state after the module has loaded: addresses 0 and 1 hold
the two default list objects. -/
def moduleLoadAlloc : Alloc := { next := 2 }

/-- How a caller supplies a list argument: omitted, or a fresh `[]`
written at the call site. -/
inductive ListArg where
  | omitted
  | fresh

/-- The list-valued field of a constructed JavaConstructor instance, by
heap address. -/
structure JavaConstructorObj where
  argument_types : Addr

/-- The list-valued field of a constructed JavaType instance, by heap
address. -/
structure JavaTypeObj where
  direct_supertypes : Addr

/-- Calling `JavaConstructor(...)`: an omitted argument binds the single
default list object; a fresh `[]` at the call site allocates. -/
def mkJavaConstructor : ListArg → Alloc → JavaConstructorObj × Alloc
  | ListArg.omitted, s => ({ argument_types := javaConstructorDefault }, s)
  | ListArg.fresh, s =>
    let r := newList s
    ({ argument_types := r.1 }, r.2)

/-- Calling `JavaType(name, ...)`: an omitted supertype list binds the
single default list object; a fresh `[]` at the call site allocates. -/
def mkJavaType : ListArg → Alloc → JavaTypeObj × Alloc
  | ListArg.omitted, s => ({ direct_supertypes := javaTypeDefault }, s)
  | ListArg.fresh, s =>
    let r := newList s
    ({ direct_supertypes := r.1 }, r.2)

end PyDefaults

namespace TypeChecker

theorem reach_iff (g : TypeGraph) (a c : Nat) :
    Reach g a c ↔ (c = a ∨ ∃ b ∈ (g.info a).direct_supertypes, Reach g b c) := by
  constructor
  · intro h
    cases h with
    | refl => exact Or.inl rfl
    | step hmem hr => exact Or.inr ⟨_, hmem, hr⟩
  · intro h
    rcases h with rfl | ⟨b, hb, hr⟩
    · exact Reach.refl _
    · exact Reach.step hb hr

theorem reach_trans (g : TypeGraph) : ∀ {a b c : Nat}, Reach g a b → Reach g b c → Reach g a c := by
  intro a b c h1
  induction h1 with
  | refl => intro h2; exact h2
  | step hmem _ ih => intro h2; exact Reach.step hmem (ih h2)

theorem anyOpt_total (f : Nat → Option Bool) (P : Nat → Prop) :
    ∀ l : List Nat, (∀ t ∈ l, ∃ b, f t = some b ∧ (b = true ↔ P t)) →
      ∃ b, anyOpt f l = some b ∧ (b = true ↔ ∃ t ∈ l, P t) := by
  intro l
  induction l with
  | nil =>
    intro _
    exact ⟨false, rfl, by simp⟩
  | cons t ts ih =>
    intro h
    obtain ⟨b, hb, hbiff⟩ := h t (List.mem_cons_self t ts)
    cases b with
    | true =>
      refine ⟨true, by simp [anyOpt, hb], ?_⟩
      simp only [true_iff]
      exact ⟨t, List.mem_cons_self t ts, hbiff.mp rfl⟩
    | false =>
      obtain ⟨b2, hb2, hbiff2⟩ := ih (fun u hu => h u (List.mem_cons_of_mem t hu))
      refine ⟨b2, by simp [anyOpt, hb, hb2], ?_⟩
      rw [hbiff2]
      constructor
      · rintro ⟨u, hu, hp⟩
        exact ⟨u, List.mem_cons_of_mem t hu, hp⟩
      · rintro ⟨u, hu, hp⟩
        rcases List.mem_cons.mp hu with rfl | hu2
        · exact absurd (hbiff.mpr hp) (by simp)
        · exact ⟨u, hu2, hp⟩

/-- On an acyclic graph, `is_subtype_of` with enough fuel returns a
definite boolean which decides reachability through supertype edges. -/
theorem is_subtype_of_total (g : TypeGraph) (r : Nat → Nat) (hr : Ranked g r) :
    ∀ fuel self other : Nat, r self < fuel →
      ∃ b, is_subtype_of g fuel self other = some b ∧ (b = true ↔ Reach g self other) := by
  intro fuel
  induction fuel with
  | zero =>
    intro self other h
    exact absurd h (Nat.not_lt_zero _)
  | succ k ih =>
    intro self other h
    by_cases heq : other = self
    · refine ⟨true, by simp [is_subtype_of, heq], ?_⟩
      subst heq
      simp only [true_iff]
      exact Reach.refl other
    · have hsub : ∀ t ∈ (g.info self).direct_supertypes,
          ∃ b, is_subtype_of g k t other = some b ∧ (b = true ↔ Reach g t other) := by
        intro t ht
        exact ih t other (lt_of_lt_of_le (hr self t ht) (Nat.lt_succ_iff.mp h))
      obtain ⟨b, hb, hbiff⟩ :=
        anyOpt_total (fun t => is_subtype_of g k t other) (fun t => Reach g t other) _ hsub
      refine ⟨b, by simp [is_subtype_of, heq]; exact hb, ?_⟩
      rw [hbiff]
      constructor
      · rintro ⟨t, ht, hreach⟩
        exact Reach.step ht hreach
      · intro hreach
        rcases (reach_iff g self other).mp hreach with rfl | ⟨t, ht, htr⟩
        · exact absurd rfl heq
        · exact ⟨t, ht, htr⟩

theorem anyOpt_eq_true (f : Nat → Option Bool) :
    ∀ l : List Nat, anyOpt f l = some true → ∃ t ∈ l, f t = some true := by
  intro l
  induction l with
  | nil =>
    intro h
    simp [anyOpt] at h
  | cons t ts ih =>
    intro h
    cases hft : f t with
    | none => simp [anyOpt, hft] at h
    | some b =>
      cases b with
      | true => exact ⟨t, List.mem_cons_self t ts, hft⟩
      | false =>
        simp only [anyOpt, hft] at h
        obtain ⟨u, hu, hfu⟩ := ih h
        exact ⟨u, List.mem_cons_of_mem t hu, hfu⟩

/-- A `some true` answer of `is_subtype_of` always exhibits reachability
through direct supertype edges, with no acyclicity assumption. -/
theorem is_subtype_of_sound (g : TypeGraph) :
    ∀ fuel self other : Nat, is_subtype_of g fuel self other = some true → Reach g self other := by
  intro fuel
  induction fuel with
  | zero =>
    intro self other h
    simp [is_subtype_of] at h
  | succ k ih =>
    intro self other h
    by_cases heq : other = self
    · subst heq
      exact Reach.refl _
    · simp only [is_subtype_of, if_neg heq] at h
      obtain ⟨t, ht, hft⟩ := anyOpt_eq_true _ _ h
      exact Reach.step ht (ih t other hft)

theorem searchList_found {α : Type} (f : Nat → Option (Except String α)) (failMsg : String) :
    ∀ (l1 : List Nat) (s : Nat) (l2 : List Nat) (m : α),
      (∀ u ∈ l1, ∃ msg, f u = some (Except.error msg)) →
      f s = some (Except.ok m) →
      searchList f failMsg (l1 ++ s :: l2) = some (Except.ok m) := by
  intro l1
  induction l1 with
  | nil =>
    intro s l2 m _ hs
    simp [searchList, hs]
  | cons u us ih =>
    intro s l2 m hfail hs
    obtain ⟨msg, hmsg⟩ := hfail u (List.mem_cons_self u us)
    simp only [List.cons_append, searchList, hmsg]
    exact ih s l2 m (fun v hv => hfail v (List.mem_cons_of_mem u hv)) hs

theorem searchList_fail {α : Type} (f : Nat → Option (Except String α)) (failMsg : String) :
    ∀ l : List Nat, (∀ u ∈ l, ∃ msg, f u = some (Except.error msg)) →
      searchList f failMsg l = some (Except.error failMsg) := by
  intro l
  induction l with
  | nil =>
    intro _
    rfl
  | cons u us ih =>
    intro hfail
    obtain ⟨msg, hmsg⟩ := hfail u (List.mem_cons_self u us)
    simp only [searchList, hmsg]
    exact ih (fun v hv => hfail v (List.mem_cons_of_mem u hv))

theorem chainGraph_ranked : Ranked chainGraph (fun t => t) := by
  intro t s hs
  show s < t
  by_cases h2 : t = 2
  · subst h2
    simp [chainGraph] at hs
    omega
  · by_cases h1 : t = 1
    · subst h1
      simp [chainGraph, h2] at hs
      omega
    · simp [chainGraph, h2, h1] at hs

theorem twinGraph_ranked : Ranked twinGraph (fun t => t) := by
  intro t s hs
  simp [twinGraph] at hs

theorem twinGraph_not_reach : ¬ Reach twinGraph 0 1 := by
  intro h
  cases h with
  | step hmem _ => simp [twinGraph] at hmem

/-- C6: for every type T, `T.is_subtype_of(T)` is true.  The second
conjunct shows the decision is the identity test `other == self` alone:
it already succeeds with a recursion budget of one call, before any
supertype traversal could take place. -/
theorem is_subtype_of_refl (g : TypeGraph) (a fuel : Nat) :
    is_subtype_of g (fuel + 1) a a = some true ∧ is_subtype_of g 1 a a = some true := by
  constructor <;> simp [is_subtype_of]

/-- C7: in an acyclic supertype graph (witnessed by a rank function), if
`C.is_subtype_of(B)` and `B.is_subtype_of(A)` both return true, then
`C.is_subtype_of(A)` returns true (with any sufficient recursion budget
for the final query). -/
theorem is_subtype_of_trans (g : TypeGraph) (r : Nat → Nat) (a b c f1 f2 f3 : Nat)
    (hr : Ranked g r) (h3 : r c < f3)
    (hcb : is_subtype_of g f1 c b = some true)
    (hba : is_subtype_of g f2 b a = some true) :
    is_subtype_of g f3 c a = some true := by
  have hr1 : Reach g c b := is_subtype_of_sound g f1 c b hcb
  have hr2 : Reach g b a := is_subtype_of_sound g f2 b a hba
  obtain ⟨bl, hbl, hiff⟩ := is_subtype_of_total g r hr f3 c a h3
  rw [hbl, hiff.mpr (reach_trans g hr1 hr2)]

theorem is_subtype_of_trans_witness :
    is_subtype_of chainGraph 3 2 0 = some true :=
  is_subtype_of_trans chainGraph (fun t => t) 0 1 2 3 3 3 chainGraph_ranked (by decide) rfl rfl

/-- C8: when the supertype graph is acyclic (a rank function strictly
decreasing along supertype edges, a precondition supplied by the caller),
`is_subtype_of` returns a result for every other type once the recursion
budget exceeds the rank of the receiver.  The second conjunct shows the
precondition is not checked at runtime: on a graph whose type 0 lists
itself as a supertype, the query diverges (returns no result for any
budget) instead of reporting the cycle. -/
theorem is_subtype_of_terminates (g : TypeGraph) (r : Nat → Nat) (hr : Ranked g r)
    (self other fuel : Nat) (h : r self < fuel) :
    (is_subtype_of g fuel self other).isSome = true ∧
      ∀ f : Nat, is_subtype_of loopGraph f 0 1 = none := by
  constructor
  · obtain ⟨b, hb, _⟩ := is_subtype_of_total g r hr fuel self other h
    rw [hb]
    rfl
  · intro f
    induction f with
    | zero => rfl
    | succ k ih =>
      simp [is_subtype_of, anyOpt, ih,
        show (loopGraph.info 0).direct_supertypes = [0] from rfl]

theorem is_subtype_of_terminates_witness :
    (is_subtype_of chainGraph 3 2 0).isSome = true :=
  (is_subtype_of_terminates chainGraph (fun t => t) chainGraph_ranked 2 0 3 (by decide)).1

/-- C10: subtype comparison between distinct type objects is decided by
object identity, not by name: when b is not reachable from a through
direct-supertype chains, `a.is_subtype_of(b)` returns false even when the
two objects carry equal names. -/
theorem is_subtype_of_identity (g : TypeGraph) (r : Nat → Nat) (hr : Ranked g r)
    (a b fuel : Nat) (h : r a < fuel) (_hab : a ≠ b) (hnr : ¬ Reach g a b)
    (_hname : (g.info a).name = (g.info b).name) :
    is_subtype_of g fuel a b = some false := by
  obtain ⟨bl, hbl, hiff⟩ := is_subtype_of_total g r hr fuel a b h
  cases bl with
  | false => exact hbl
  | true => exact absurd (hiff.mp rfl) hnr

theorem is_subtype_of_identity_witness :
    is_subtype_of twinGraph 1 0 1 = some false :=
  is_subtype_of_identity twinGraph (fun t => t) twinGraph_ranked 0 1 1 (by decide) (by decide)
    twinGraph_not_reach rfl

/-- C4: `method_named` returns the method from the type's own
name-to-method mapping when present; otherwise it tries each direct
supertype in declared order, depth-first, returning the first match
(skipping however many leading supertype branches fail); if every branch
fails it raises a no-such-method error whose message names both the
receiver type and the method name. -/
theorem method_named_spec (g : TypeGraph) (fuel t : Nat) (name : String) :
    (∀ m, methodsDict (g.info t).methods name = some m →
        method_named g (fuel + 1) t name = some (Except.ok m))
  ∧ (∀ l1 s l2 m, methodsDict (g.info t).methods name = none →
        (g.info t).direct_supertypes = l1 ++ s :: l2 →
        (∀ u ∈ l1, ∃ msg, method_named g fuel u name = some (Except.error msg)) →
        method_named g fuel s name = some (Except.ok m) →
        method_named g (fuel + 1) t name = some (Except.ok m))
  ∧ (methodsDict (g.info t).methods name = none →
        (∀ u ∈ (g.info t).direct_supertypes, ∃ msg, method_named g fuel u name = some (Except.error msg)) →
        method_named g (fuel + 1) t name =
          some (Except.error ((g.info t).name ++ " has no method named " ++ name))) := by
  refine ⟨?_, ?_, ?_⟩
  · intro m hm
    simp [method_named, hm]
  · intro l1 s l2 m hnone hsup hfail hs
    simp only [method_named, hnone]
    rw [hsup]
    exact searchList_found _ _ l1 s l2 m hfail hs
  · intro hnone hfail
    simp only [method_named, hnone]
    exact searchList_fail _ _ _ hfail

theorem method_named_spec_witness :
    method_named diamondGraph 3 3 "draw" = some (Except.ok leftDraw) :=
  (method_named_spec diamondGraph 2 3 "draw").2.1 [] 1 [2] leftDraw rfl rfl
    (fun u hu => absurd hu (List.not_mem_nil u)) rfl

end TypeChecker

namespace JavaTypeChecker

/-- C1 counterexample: `static_type()` is not safe to call on every node
that would fail `check_types()` — on a method-call node whose receiver's
static type is the primitive type int, it raises a JavaTypeError instead
of returning a type. -/
theorem static_type_raises_on_primitive :
    static_type testEnv 5 (JavaExpr.JavaMethodCall (JavaExpr.JavaVariable "x" 0) "foo" []) =
      some (Except.error (JavaError.JavaTypeError "Cannot call method foo on primitive type int")) :=
  rfl

/-- C1 (amended): `static_type()` performs no subtype validation, and for
variables, literals, the null literal and assignments it never raises and
returns a type computed from the node's own fields and its children's
static types; but a method-call node's static_type() raises JavaTypeError
when the receiver's static type is not an object type or when the method
name does not resolve, and otherwise returns the resolved method's return
type; and a constructor-call node's static_type() raises
NotImplementedError. -/
theorem static_type_spec (env : JEnv) (fuel : Nat) :
    (∀ n t, static_type env fuel (JavaExpr.JavaVariable n t) = some (Except.ok t))
  ∧ (∀ v t, static_type env fuel (JavaExpr.JavaLiteral v t) = some (Except.ok t))
  ∧ (static_type env fuel JavaExpr.JavaNullLiteral = some (Except.ok env.nullId))
  ∧ (∀ lhs rhs, static_type env fuel (JavaExpr.JavaAssignment lhs rhs) = static_type env fuel lhs)
  ∧ (∀ receiver mname args rt, static_type env fuel receiver = some (Except.ok rt) →
      ((env.info rt).is_object_type = false →
        static_type env fuel (JavaExpr.JavaMethodCall receiver mname args) =
          some (Except.error (JavaError.JavaTypeError
            ("Cannot call method " ++ mname ++ " on primitive type " ++ (env.info rt).name))))
      ∧ (∀ msg, (env.info rt).is_object_type = true →
          method_named env fuel rt mname = some (Except.error msg) →
          static_type env fuel (JavaExpr.JavaMethodCall receiver mname args) =
            some (Except.error (JavaError.JavaTypeError msg)))
      ∧ (∀ m, (env.info rt).is_object_type = true →
          method_named env fuel rt mname = some (Except.ok m) →
          static_type env fuel (JavaExpr.JavaMethodCall receiver mname args) =
            some (Except.ok m.return_type)))
  ∧ (∀ t args, static_type env fuel (JavaExpr.JavaConstructorCall t args) =
      some (Except.error (JavaError.NotImplementedError
        "JavaConstructorCall must override static_type()"))) := by
  refine ⟨fun n t => rfl, fun v t => rfl, rfl, fun lhs rhs => rfl, ?_, fun t args => rfl⟩
  intro receiver mname args rt hrt
  refine ⟨?_, ?_, ?_⟩
  · intro hprim
    simp [static_type, rbind, hrt, hprim]
  · intro msg hobj hm
    simp [static_type, rbind, hrt, hobj, hm]
  · intro m hobj hm
    simp [static_type, rbind, hrt, hobj, hm]

theorem static_type_spec_witness :
    static_type testEnv 5 (JavaExpr.JavaMethodCall (JavaExpr.JavaVariable "y" 0) "baz" []) =
      some (Except.error (JavaError.JavaTypeError "Cannot call method baz on primitive type int")) :=
  ((static_type_spec testEnv 5).2.2.2.2.1 (JavaExpr.JavaVariable "y" 0) "baz" [] 0 rfl).1 rfl

/-- C2: the code does not implement constructor calls: both static_type()
and check_types() on a constructor-call node raise NotImplementedError
from the JavaExpression base class, instead of returning the instantiated
type and validating instantiability, argument count and argument types. -/
theorem constructor_call_unimplemented :
    static_type testEnv 5 (JavaExpr.JavaConstructorCall 1 []) =
      some (Except.error (JavaError.NotImplementedError
        "JavaConstructorCall must override static_type()"))
  ∧ check_types testEnv 5 (JavaExpr.JavaConstructorCall 1 []) =
      some (Except.error (JavaError.NotImplementedError
        "JavaConstructorCall must override check_types()")) :=
  ⟨rfl, rfl⟩

/-- C3 counterexample: a method call with an ill-typed argument subtree
(first conjunct: the argument alone fails check_types() with a
type-mismatch error) and a wrong argument count raises this node's
argument-count error, not the child's error, so the children are not all
checked before the node's own validation. -/
theorem method_call_count_error_preempts_child :
    check_types testEnv 6 badAssign =
      some (Except.error (JavaError.JavaTypeMismatchError "Cannot assign B to variable a of type A"))
  ∧ check_types testEnv 6
      (JavaExpr.JavaMethodCall (JavaExpr.JavaVariable "foo" 1) "bar"
        [badAssign, JavaExpr.JavaLiteral "0" 0]) =
      some (Except.error (JavaError.JavaArgumentCountError
        "Wrong number of arguments for Foo.bar(): expected 1, got 2")) :=
  ⟨rfl, rfl⟩

/-- C3 (amended): check_types() on a method call checks the receiver child
first — a receiver error propagates before any of this node's own
validation — but argument children are checked only inside the
per-argument loop, after the receiver-object, method-existence and
argument-count validations: when the argument count differs from the
parameter count, the argument-count error is raised without any argument
child having been checked. -/
theorem check_types_method_call_order (env : JEnv) (fuel : Nat) (receiver : JavaExpr)
    (mname : String) (args : List JavaExpr) :
    (∀ e, check_types env fuel receiver = some (Except.error e) →
      check_types env (fuel + 1) (JavaExpr.JavaMethodCall receiver mname args) =
        some (Except.error e))
  ∧ (∀ rt m, check_types env fuel receiver = some (Except.ok ()) →
      static_type env fuel receiver = some (Except.ok rt) →
      (env.info rt).is_object_type = true →
      method_named env fuel rt mname = some (Except.ok m) →
      m.parameter_types.length ≠ args.length →
      check_types env (fuel + 1) (JavaExpr.JavaMethodCall receiver mname args) =
        some (Except.error (JavaError.JavaArgumentCountError
          ("Wrong number of arguments for " ++ (env.info rt).name ++ "." ++ mname
            ++ "(): expected " ++ toString m.parameter_types.length
            ++ ", got " ++ toString args.length)))) := by
  constructor
  · intro e he
    simp only [check_types] at he
    simp [check_types, checkW, rbind, he]
  · intro rt m hc hs hobj hm hlen
    simp only [check_types] at hc
    simp [check_types, checkW, rbind, hc, hs, hobj, hm, hlen]

theorem check_types_method_call_order_witness :
    check_types testEnv 6
        (JavaExpr.JavaMethodCall (JavaExpr.JavaVariable "g" 1) "bar"
          [JavaExpr.JavaLiteral "1" 0, JavaExpr.JavaLiteral "2" 0, JavaExpr.JavaLiteral "3" 0]) =
      some (Except.error (JavaError.JavaArgumentCountError
        "Wrong number of arguments for Foo.bar(): expected 1, got 3")) :=
  (check_types_method_call_order testEnv 5 (JavaExpr.JavaVariable "g" 1) "bar"
      [JavaExpr.JavaLiteral "1" 0, JavaExpr.JavaLiteral "2" 0, JavaExpr.JavaLiteral "3" 0]).2
    1 { name := "bar", parameter_types := [0], return_type := 0 } rfl rfl rfl rfl (by decide)

/-- C5: for an assignment whose children pass check_types(), check_types()
raises a type-mismatch error exactly when the right side's static type is
not a subtype of the left side's static type; the message names the
variable and both type names when the left side is a variable, and is a
generic two-type message otherwise. -/
theorem check_types_assignment_spec (env : JEnv) (fuel : Nat) (lhs rhs : JavaExpr) (lt rt : Nat)
    (hcl : check_types env fuel lhs = some (Except.ok ()))
    (hcr : check_types env fuel rhs = some (Except.ok ()))
    (hsl : static_type env fuel lhs = some (Except.ok lt))
    (hsr : static_type env fuel rhs = some (Except.ok rt)) :
    (is_subtype_of env fuel rt lt = some true →
      check_types env (fuel + 1) (JavaExpr.JavaAssignment lhs rhs) = some (Except.ok ()))
  ∧ (is_subtype_of env fuel rt lt = some false →
      (∀ vname dt, lhs = JavaExpr.JavaVariable vname dt →
        check_types env (fuel + 1) (JavaExpr.JavaAssignment lhs rhs) =
          some (Except.error (JavaError.JavaTypeMismatchError
            ("Cannot assign " ++ (env.info rt).name ++ " to variable " ++ vname
              ++ " of type " ++ (env.info lt).name))))
      ∧ ((∀ vname dt, lhs ≠ JavaExpr.JavaVariable vname dt) →
        check_types env (fuel + 1) (JavaExpr.JavaAssignment lhs rhs) =
          some (Except.error (JavaError.JavaTypeMismatchError
            ("Cannot assign " ++ (env.info rt).name ++ " to " ++ (env.info lt).name))))) := by
  simp only [check_types] at hcl hcr
  refine ⟨?_, fun hsub => ⟨?_, ?_⟩⟩
  · intro hsub
    simp [check_types, checkW, rbind, hcl, hcr, hsl, hsr, hsub]
  · rintro vname dt rfl
    simp [check_types, checkW, rbind, hcl, hcr, hsl, hsr, hsub]
  · intro hnv
    cases lhs with
    | JavaVariable n d => exact absurd rfl (hnv n d)
    | JavaLiteral v t => simp [check_types, checkW, rbind, hcl, hcr, hsl, hsr, hsub]
    | JavaNullLiteral => simp [check_types, checkW, rbind, hcl, hcr, hsl, hsr, hsub]
    | JavaAssignment a b => simp [check_types, checkW, rbind, hcl, hcr, hsl, hsr, hsub]
    | JavaMethodCall r mn as => simp [check_types, checkW, rbind, hcl, hcr, hsl, hsr, hsub]
    | JavaConstructorCall t as => simp [check_types, checkW, rbind, hcl, hcr, hsl, hsr, hsub]

theorem check_types_assignment_spec_witness :
    check_types testEnv 6
        (JavaExpr.JavaAssignment (JavaExpr.JavaVariable "shape" 2) (JavaExpr.JavaLiteral "5" 3)) =
      some (Except.error (JavaError.JavaTypeMismatchError
        "Cannot assign B to variable shape of type A")) :=
  ((check_types_assignment_spec testEnv 5 (JavaExpr.JavaVariable "shape" 2)
      (JavaExpr.JavaLiteral "5" 3) 2 3 rfl rfl rfl rfl).2 rfl).1 "shape" 2 rfl

end JavaTypeChecker

namespace PyDefaults

/-- C9: the mutable-default-argument pattern of types.py is reproduced:
two JavaConstructor instances (and two JavaType instances) constructed
without an explicit list argument receive the same default list object,
created once at def time — the lists are shared between distinct
instances, not independently constructed — whereas call-site-constructed
lists are pairwise distinct. -/
theorem default_lists_are_shared :
    ((mkJavaConstructor ListArg.omitted moduleLoadAlloc).1.argument_types =
      (mkJavaConstructor ListArg.omitted
        (mkJavaConstructor ListArg.omitted moduleLoadAlloc).2).1.argument_types)
  ∧ ((mkJavaType ListArg.omitted moduleLoadAlloc).1.direct_supertypes =
      (mkJavaType ListArg.omitted
        (mkJavaType ListArg.omitted moduleLoadAlloc).2).1.direct_supertypes)
  ∧ ((mkJavaConstructor ListArg.fresh moduleLoadAlloc).1.argument_types ≠
      (mkJavaConstructor ListArg.fresh
        (mkJavaConstructor ListArg.fresh moduleLoadAlloc).2).1.argument_types) :=
  ⟨rfl, rfl, by decide⟩

end PyDefaults
